import Mathlib

/-!
Verification of the time-value / clock / scheduling core of the
`refiners.training_utils` package against its natural-language specification.

The configuration surface (`refiners/training_utils/config.py`) is embedded
directly from the source.  The `common` and `clock` modules it imports
(`TimeValue`, `parse_number_unit_field`, the resolver, the clock and the
triggers) are not part of the provided sources, so those definitions are
modelled from the specification and carry a doc comment saying so.
-/

/-- The closed set of time units: iteration, step, epoch
(`TimeUnit` in `refiners.training_utils.common`). -/
inductive TimeUnit where
  | iteration
  | step
  | epoch
deriving DecidableEq, Repr

/-- A `(magnitude, unit)` pair.  The source calls the magnitude `number`
(see the comment `TimeValue(number=1, unit=TimeUnit.ITERATION)` in
`config.py`); it is a non-negative integer. -/
structure TimeValue where
  number : Nat
  unit : TimeUnit
deriving DecidableEq, Repr

/-- The single parse-time error of the time-value parsing surface. -/
inductive ParseError where
  | invalidTimeValue
deriving DecidableEq, Repr

/-- Modelled from the spec: the input shapes accepted wherever a
TimeValue-typed configuration field is read (`TimeValueInput` in
`refiners.training_utils.common`, absent from the provided sources):
a bare integer, or a unit-tagged value.  The unit-suffixed string form
and the structured record form both collapse to the `tagged` shape,
holding the numeric part (a rational, so that non-integral inputs are
representable) and the raw unit token. -/
inductive TimeValueInput where
  | bare (n : Int)
  | tagged (number : Rat) (unitToken : String)

/-- Character-wise lowercasing of a token (the embedding of the
case-insensitive matching of unit tokens). -/
def lowercase (s : String) : String :=
  String.mk (s.data.map Char.toLower)

/-- Modelled from the spec: the fixed unit-token vocabulary,
case-insensitive and singular/plural tolerant. -/
def parseUnit (tok : String) : Option TimeUnit :=
  match lowercase tok with
  | "iteration" => some TimeUnit.iteration
  | "iterations" => some TimeUnit.iteration
  | "step" => some TimeUnit.step
  | "steps" => some TimeUnit.step
  | "epoch" => some TimeUnit.epoch
  | "epochs" => some TimeUnit.epoch
  | _ => none

/-- Modelled from the spec: `parse_number_unit_field` of
`refiners.training_utils.common` (absent from the provided sources).
A bare integer takes the call site's default unit; a tagged input fails
with `InvalidTimeValue` when the numeric part is negative or
non-integral or the unit token is unrecognized. -/
def parse_number_unit_field (input : TimeValueInput) (defaultUnit : TimeUnit) :
    Except ParseError TimeValue :=
  match input with
  | TimeValueInput.bare n =>
      if n < 0 then Except.error ParseError.invalidTimeValue
      else Except.ok { number := n.toNat, unit := defaultUnit }
  | TimeValueInput.tagged q tok =>
      match parseUnit tok with
      | none => Except.error ParseError.invalidTimeValue
      | some u =>
          if q < 0 then Except.error ParseError.invalidTimeValue
          else if q.den ≠ 1 then Except.error ParseError.invalidTimeValue
          else Except.ok { number := q.num.toNat, unit := u }

/-- The canonical token of a unit, used when serializing a TimeValue. -/
def TimeUnit.token : TimeUnit → String
  | TimeUnit.iteration => "iteration"
  | TimeUnit.step => "step"
  | TimeUnit.epoch => "epoch"

/-- Modelled from the spec: serialization of a TimeValue back into the
parsing surface (its magnitude together with its unit token). -/
def TimeValue.serialize (v : TimeValue) : TimeValueInput :=
  TimeValueInput.tagged (v.number : Rat) v.unit.token

/-- The numeric part of a parse input is negative. -/
def TimeValueInput.numericNegative : TimeValueInput → Prop
  | TimeValueInput.bare n => n < 0
  | TimeValueInput.tagged q _ => q < 0

/-- The numeric part of a parse input is non-integral (only a tagged
input can carry a non-integral number). -/
def TimeValueInput.numericNonIntegral : TimeValueInput → Prop
  | TimeValueInput.bare _ => False
  | TimeValueInput.tagged q _ => q.den ≠ 1

/-- The unit token of a parse input is not in the recognized vocabulary
(a bare integer carries no token). -/
def TimeValueInput.unitUnrecognized : TimeValueInput → Prop
  | TimeValueInput.bare _ => False
  | TimeValueInput.tagged _ tok => parseUnit tok = none

/-- Modelled from the spec: the run's batch size and (possibly unknown)
dataset length, supplied once per run. -/
structure RunContext where
  batch_size : Nat
  dataset_length : Option Nat

/-- Resolution errors of the Resolver. -/
inductive ResolveError where
  | unknownDatasetLength
deriving DecidableEq, Repr

/-- Modelled from the spec: the Resolver.  Iteration and Step units
resolve to their own magnitude; an Epoch unit resolves to
`ceil(magnitude * dataset_length / batch_size)` and fails with
`UnknownDatasetLength` when the dataset length is unknown. -/
def resolve (v : TimeValue) (ctx : RunContext) : Except ResolveError Nat :=
  match v.unit with
  | TimeUnit.iteration => Except.ok v.number
  | TimeUnit.step => Except.ok v.number
  | TimeUnit.epoch =>
      match ctx.dataset_length with
      | none => Except.error ResolveError.unknownDatasetLength
      | some len => Except.ok ((v.number * len + ctx.batch_size - 1) / ctx.batch_size)

/-- Modelled from the spec: the clock's state — iterations and steps
elapsed since run start (epochs elapsed is derived, never stored). -/
structure ClockState where
  iterations_elapsed : Nat
  steps_elapsed : Nat
deriving DecidableEq, Repr

/-- The run-start snapshot: nothing has elapsed. -/
def ClockState.start : ClockState :=
  { iterations_elapsed := 0, steps_elapsed := 0 }

/-- Modelled from the spec: the Clock.  Unlike the Resolver it must
always know the dataset length (obtained from the dataloader before
training starts), together with the batch size. -/
structure Clock where
  batch_size : Nat
  dataset_length : Nat
  state : ClockState
deriving DecidableEq, Repr

/-- A freshly initialized Clock at run start. -/
def startClock (batchSize datasetLength : Nat) : Clock :=
  { batch_size := batchSize, dataset_length := datasetLength, state := ClockState.start }

/-- The run context the Clock resolves epoch intervals against: its own
batch size and its (always known) dataset length. -/
def Clock.runContext (c : Clock) : RunContext :=
  { batch_size := c.batch_size, dataset_length := some c.dataset_length }

/-- Modelled from the spec: `advance`, called once per processed
mini-batch.  Iterations always increment; steps increment only when this
iteration closed a gradient-accumulation window. -/
def Clock.advance (c : Clock) (completedStep : Bool) : Clock :=
  { c with state :=
      { iterations_elapsed := c.state.iterations_elapsed + 1,
        steps_elapsed := c.state.steps_elapsed + (if completedStep then 1 else 0) } }

/-- `n` successive advances, each with the same step-completion flag. -/
def Clock.advanceBy (c : Clock) : Nat → Bool → Clock
  | 0, _ => c
  | n + 1, b => (c.advanceBy n b).advance b

/-- Successive advances with an arbitrary sequence of step-completion
flags (one flag per processed mini-batch). -/
def Clock.advanceSeq (c : Clock) : List Bool → Clock
  | [] => c
  | b :: bs => (c.advance b).advanceSeq bs

/-- Modelled from the spec: `elapsed_since` — true iff the progress in
the interval's unit since the reference snapshot is at least the
interval's magnitude; Step and Iteration units use exact integer
subtraction, an Epoch unit compares against its resolved iteration
threshold. -/
def Clock.elapsed_since (c : Clock) (ref : ClockState) (interval : TimeValue) : Bool :=
  match interval.unit with
  | TimeUnit.iteration =>
      decide (interval.number ≤ c.state.iterations_elapsed - ref.iterations_elapsed)
  | TimeUnit.step =>
      decide (interval.number ≤ c.state.steps_elapsed - ref.steps_elapsed)
  | TimeUnit.epoch =>
      match resolve interval c.runContext with
      | Except.ok threshold =>
          decide (threshold ≤ c.state.iterations_elapsed - ref.iterations_elapsed)
      | Except.error _ => false

/-- Modelled from the spec: the warmup trigger, a degenerate one-shot
trigger built from the warmup TimeValue and the run-start snapshot. -/
structure WarmupTrigger where
  warmup : TimeValue
  run_start : ClockState

/-- The warmup trigger for a given warmup value, anchored at run start. -/
def warmupTrigger (w : TimeValue) : WarmupTrigger :=
  { warmup := w, run_start := ClockState.start }

/-- Modelled from the spec: the warmup trigger's `should_fire` reports
"still warming" exactly while `elapsed_since(run-start, warmup)` is
false; once that becomes true it reports complete. -/
def WarmupTrigger.should_fire (t : WarmupTrigger) (c : Clock) : Bool :=
  ! c.elapsed_since t.run_start t.warmup

/-- The `TrainingConfig` model of `config.py`, restricted to its fields
and their declared defaults (`device="cpu"`, `dtype="float32"`,
`duration=Iteration(1)`, `seed=0`, `batch_size=1`,
`gradient_accumulation=Step(1)`, `evaluation_interval=Iteration(1)`,
`gradient_clipping_max_norm=None`, `evaluation_seed=0`).  Python floats
are embedded as rationals. -/
structure TrainingConfig where
  device : String := "cpu"
  dtype : String := "float32"
  duration : TimeValue := { number := 1, unit := TimeUnit.iteration }
  seed : Int := 0
  batch_size : Int := 1
  gradient_accumulation : TimeValue := { number := 1, unit := TimeUnit.step }
  evaluation_interval : TimeValue := { number := 1, unit := TimeUnit.iteration }
  gradient_clipping_max_norm : Option Rat := none
  evaluation_seed : Int := 0

/-- The pydantic annotation `gradient_accumulation: Step | Epoch` of
`TrainingConfig` in `config.py`: after `parse_field` produces a
TimeValue, validation accepts it only if it is a Step or an Epoch. -/
def TrainingConfig.gradientAccumulationAccepts (v : TimeValue) : Bool :=
  v.unit == TimeUnit.step || v.unit == TimeUnit.epoch

/-- The pydantic annotation `evaluation_interval: Iteration | Epoch` of
`TrainingConfig` in `config.py`: after `parse_field` produces a
TimeValue, validation accepts it only if it is an Iteration or an
Epoch. -/
def TrainingConfig.evaluationIntervalAccepts (v : TimeValue) : Bool :=
  v.unit == TimeUnit.iteration || v.unit == TimeUnit.epoch

/-- Modelled from the spec: the per-field default unit a bare integer
takes for the `duration` field (callers for duration default to
Iteration). -/
def durationDefaultUnit : TimeUnit := TimeUnit.iteration

/-- The `Optimizers` enumeration of `config.py`. -/
inductive Optimizers where
  | SGD
  | Adam
  | AdamW
  | AdamW8bit
  | Lion8bit
  | Prodigy
deriving DecidableEq, Repr

/-- The `OptimizerConfig` model of `config.py` with its declared
defaults (`learning_rate=1e-4`, `betas=(0.9, 0.999)`, `eps=1e-8`,
`weight_decay=1e-2`); floats embedded as rationals. -/
structure OptimizerConfig where
  optimizer : Optimizers
  learning_rate : Rat := mkRat 1 10000
  betas : Rat × Rat := (mkRat 9 10, mkRat 999 1000)
  eps : Rat := mkRat 1 100000000
  weight_decay : Rat := mkRat 1 100
deriving DecidableEq, Repr

/-- The optimizer object `OptimizerConfig.get` constructs: which
optimizer class was instantiated and the hyperparameters passed to it
(`none` when the branch does not pass that argument). -/
structure OptimizerInstance where
  kind : Optimizers
  lr : Rat
  betas : Option (Rat × Rat)
  eps : Option Rat
  weight_decay : Rat
  safeguard_warmup : Bool
  use_bias_correction : Bool
deriving DecidableEq, Repr

/-- `OptimizerConfig.get` of `config.py`, embedded as a pure function
returning the warnings it emits alongside the constructed optimizer:
one branch per `Optimizers` variant; the Prodigy branch warns when
`learning_rate != 1.0` and then still constructs the Prodigy optimizer
with `safeguard_warmup=True` and `use_bias_correction=True`. -/
def OptimizerConfig.get (cfg : OptimizerConfig) : List String × OptimizerInstance :=
  match cfg.optimizer with
  | Optimizers.SGD =>
      ([], { kind := Optimizers.SGD, lr := cfg.learning_rate, betas := none, eps := none,
             weight_decay := cfg.weight_decay, safeguard_warmup := false,
             use_bias_correction := false })
  | Optimizers.Adam =>
      ([], { kind := Optimizers.Adam, lr := cfg.learning_rate, betas := some cfg.betas,
             eps := some cfg.eps, weight_decay := cfg.weight_decay,
             safeguard_warmup := false, use_bias_correction := false })
  | Optimizers.AdamW =>
      ([], { kind := Optimizers.AdamW, lr := cfg.learning_rate, betas := some cfg.betas,
             eps := some cfg.eps, weight_decay := cfg.weight_decay,
             safeguard_warmup := false, use_bias_correction := false })
  | Optimizers.AdamW8bit =>
      ([], { kind := Optimizers.AdamW8bit, lr := cfg.learning_rate, betas := some cfg.betas,
             eps := some cfg.eps, weight_decay := cfg.weight_decay,
             safeguard_warmup := false, use_bias_correction := false })
  | Optimizers.Lion8bit =>
      ([], { kind := Optimizers.Lion8bit, lr := cfg.learning_rate, betas := some cfg.betas,
             eps := none, weight_decay := cfg.weight_decay, safeguard_warmup := false,
             use_bias_correction := false })
  | Optimizers.Prodigy =>
      ((if cfg.learning_rate ≠ 1 then
          ["Prodigy learning rate is not 1.0, this might cause instability."]
        else []),
       { kind := Optimizers.Prodigy, lr := cfg.learning_rate, betas := some cfg.betas,
         eps := none, weight_decay := cfg.weight_decay, safeguard_warmup := true,
         use_bias_correction := true })

/-- The `LRSchedulerType` enumeration of `config.py`, as its ordered
`(member name, string value)` declarations — including the trailing
`DEFAULT = "ConstantLR"` declaration. -/
def LRSchedulerType.members : List (String × String) :=
  [("STEP_LR", "StepLR"),
   ("EXPONENTIAL_LR", "ExponentialLR"),
   ("REDUCE_LR_ON_PLATEAU", "ReduceLROnPlateau"),
   ("COSINE_ANNEALING_LR", "CosineAnnealingLR"),
   ("CONSTANT_LR", "ConstantLR"),
   ("LAMBDA_LR", "LambdaLR"),
   ("ONE_CYCLE_LR", "OneCycleLR"),
   ("MULTIPLICATIVE_LR", "MultiplicativeLR"),
   ("COSINE_ANNEALING_WARM_RESTARTS", "CosineAnnealingWarmRestarts"),
   ("CYCLIC_LR", "CyclicLR"),
   ("MULTI_STEP_LR", "MultiStepLR"),
   ("DEFAULT", "ConstantLR")]

/-- The string value carried by a named `LRSchedulerType` member. -/
def LRSchedulerType.valueOf (memberName : String) : Option String :=
  (LRSchedulerType.members.find? (fun p => p.1 == memberName)).map (fun p => p.2)

/-- The Python-enum canonicalization of a member name: a declaration
whose value duplicates an earlier member's value is an alias of that
earlier member, so the member a name denotes is the FIRST declaration
carrying the same value. -/
def LRSchedulerType.canonical (memberName : String) : Option String :=
  match LRSchedulerType.valueOf memberName with
  | none => none
  | some v => (LRSchedulerType.members.find? (fun p => p.2 == v)).map (fun p => p.1)

/-- The `LRSchedulerConfig` model of `config.py` with its declared
defaults; the `type` field holds the canonical member name of the
`LRSchedulerType` it was constructed with (`DEFAULT` canonicalizes at
enum-definition time).  Floats are embedded as rationals and
`lr_lambda` as an optional function. -/
structure LRSchedulerConfig where
  type : String := (LRSchedulerType.canonical "DEFAULT").getD "DEFAULT"
  update_interval : TimeValue := { number := 1, unit := TimeUnit.iteration }
  warmup : TimeValue := { number := 0, unit := TimeUnit.iteration }
  gamma : Rat := mkRat 1 10
  lr_lambda : Option (Int → Rat) := none
  mode : String := "min"
  factor : Rat := mkRat 1 10
  patience : Int := 10
  threshold : Rat := mkRat 1 10000
  cooldown : Int := 0
  milestones : List Int := []
  base_lr : Rat := mkRat 1 10000000
  min_lr : Rat ⊕ List Rat := Sum.inl 0
  max_lr : Rat ⊕ List Rat := Sum.inl 0
  eta_min : Rat := 0

/-- The declared field names of `TrainingConfig` in `config.py`. -/
def trainingConfigFields : List String :=
  ["device", "dtype", "duration", "seed", "batch_size", "gradient_accumulation",
   "evaluation_interval", "gradient_clipping_max_norm", "evaluation_seed"]

/-- The declared field names of `LRSchedulerConfig` in `config.py`. -/
def lrSchedulerConfigFields : List String :=
  ["type", "update_interval", "warmup", "gamma", "lr_lambda", "mode", "factor",
   "patience", "threshold", "cooldown", "milestones", "base_lr", "min_lr",
   "max_lr", "eta_min"]

/-- The declared field names of `OptimizerConfig` in `config.py`. -/
def optimizerConfigFields : List String :=
  ["optimizer", "learning_rate", "betas", "eps", "weight_decay"]

/-- The declared field names of `DataloaderConfig` in `config.py`. -/
def dataloaderConfigFields : List String :=
  ["num_workers", "pin_memory", "prefetch_factor", "persistent_workers",
   "drop_last", "shuffle"]

/-- The declared field names of `ModelConfig` in `config.py`. -/
def modelConfigFields : List String :=
  ["requires_grad", "learning_rate", "betas", "eps", "weight_decay"]

/-- The declared field names of `BaseConfig` in `config.py`. -/
def baseConfigFields : List String :=
  ["training", "optimizer", "lr_scheduler", "clock", "dataloader"]

/-- Shallow model of pydantic validation under
`model_config = ConfigDict(extra="forbid")` (set on every configuration
model in `config.py`): construction from an input record fails on the
first input key that is not a declared field of the model. -/
def validateExtra (declared inputKeys : List String) : Except String Unit :=
  match inputKeys.find? (fun k => ! declared.contains k) with
  | some k => Except.error k
  | none => Except.ok ()

theorem parseUnit_iteration : parseUnit "iteration" = some TimeUnit.iteration := rfl

theorem parseUnit_step : parseUnit "step" = some TimeUnit.step := rfl

theorem parseUnit_epoch : parseUnit "epoch" = some TimeUnit.epoch := rfl

theorem Clock.advance_batch_size (c : Clock) (b : Bool) :
    (c.advance b).batch_size = c.batch_size := rfl

theorem Clock.advance_dataset_length (c : Clock) (b : Bool) :
    (c.advance b).dataset_length = c.dataset_length := rfl

theorem Clock.advanceBy_batch_size (c : Clock) (n : Nat) (b : Bool) :
    (c.advanceBy n b).batch_size = c.batch_size := by
  induction n with
  | zero => rfl
  | succ n ih => simpa [Clock.advanceBy, Clock.advance] using ih

theorem Clock.advanceBy_dataset_length (c : Clock) (n : Nat) (b : Bool) :
    (c.advanceBy n b).dataset_length = c.dataset_length := by
  induction n with
  | zero => rfl
  | succ n ih => simpa [Clock.advanceBy, Clock.advance] using ih

theorem Clock.advanceBy_iterations (c : Clock) (n : Nat) (b : Bool) :
    (c.advanceBy n b).state.iterations_elapsed = c.state.iterations_elapsed + n := by
  induction n with
  | zero => rfl
  | succ n ih => simp [Clock.advanceBy, Clock.advance, ih]; omega

theorem Clock.advanceBy_steps_true (c : Clock) (n : Nat) :
    (c.advanceBy n true).state.steps_elapsed = c.state.steps_elapsed + n := by
  induction n with
  | zero => rfl
  | succ n ih => simp [Clock.advanceBy, Clock.advance, ih]; omega

/-- C1 counterexample: the code declares `evaluation_interval: Iteration | Epoch`,
so a Step-unit value is rejected for `evaluation_interval` and an
Iteration-unit value is accepted — contradicting the claim that both
fields accept exactly Step or Epoch and reject Iteration. -/
theorem evaluationInterval_unit_counterexample :
    TrainingConfig.evaluationIntervalAccepts { number := 2, unit := TimeUnit.step } = false ∧
    TrainingConfig.evaluationIntervalAccepts { number := 2, unit := TimeUnit.iteration } = true := by
  exact ⟨rfl, rfl⟩

/-- C1 (amended): at configuration-validation time, `gradient_accumulation`
accepts a parsed TimeValue exactly when its unit is Step or Epoch, while
`evaluation_interval` accepts one exactly when its unit is Iteration or
Epoch; every other unit is rejected for the respective field. -/
theorem interval_field_unit_acceptance (v : TimeValue) :
    (TrainingConfig.gradientAccumulationAccepts v = true ↔
      (v.unit = TimeUnit.step ∨ v.unit = TimeUnit.epoch)) ∧
    (TrainingConfig.evaluationIntervalAccepts v = true ↔
      (v.unit = TimeUnit.iteration ∨ v.unit = TimeUnit.epoch)) := by
  obtain ⟨n, u⟩ := v
  cases u <;>
    simp [TrainingConfig.gradientAccumulationAccepts, TrainingConfig.evaluationIntervalAccepts]

/-- C2: for an epoch-unit TimeValue of magnitude `m`, with known positive
dataset length and positive batch size, `resolve` returns exactly the
ceiling of `m * dataset_length / batch_size` — the least `k` with
`m * dataset_length ≤ batch_size * k` — and with the dataset length
unknown it fails with `UnknownDatasetLength`. -/
theorem resolve_epoch_is_ceil (m len bsize : Nat) (hB : 0 < bsize) (_hL : 0 < len) :
    resolve { number := m, unit := TimeUnit.epoch }
        { batch_size := bsize, dataset_length := some len } =
      Except.ok ((m * len) ⌈/⌉ bsize) ∧
    (∀ k : Nat, ((m * len) ⌈/⌉ bsize ≤ k ↔ m * len ≤ bsize * k)) ∧
    resolve { number := m, unit := TimeUnit.epoch }
        { batch_size := bsize, dataset_length := none } =
      Except.error ResolveError.unknownDatasetLength := by
  refine ⟨rfl, fun k => ?_, rfl⟩
  exact ceilDiv_le_iff_le_mul hB

/-- C2 witness: batch size 4, dataset length 100, one epoch resolves to 25. -/
theorem resolve_epoch_is_ceil_witness :
    resolve { number := 1, unit := TimeUnit.epoch }
        { batch_size := 4, dataset_length := some 100 } =
      Except.ok ((1 * 100) ⌈/⌉ 4) ∧
    resolve { number := 1, unit := TimeUnit.epoch }
        { batch_size := 4, dataset_length := none } =
      Except.error ResolveError.unknownDatasetLength := by
  have h := resolve_epoch_is_ceil 1 100 4 (by decide) (by decide)
  exact ⟨h.1, h.2.2⟩

/-- C6: a bare non-negative integer `n` for the `duration` field parses
with the field's default unit Iteration and magnitude `n`, and the
declared default of `TrainingConfig.duration` is `Iteration(1)`. -/
theorem duration_bare_int_and_default (n : Nat) :
    parse_number_unit_field (TimeValueInput.bare (n : Int)) durationDefaultUnit =
      Except.ok { number := n, unit := TimeUnit.iteration } ∧
    ({} : TrainingConfig).duration = { number := 1, unit := TimeUnit.iteration } := by
  refine ⟨?_, rfl⟩
  simp [parse_number_unit_field, durationDefaultUnit]

/-- C10: `LRSchedulerType.DEFAULT` carries the value `"ConstantLR"`, the
same as `CONSTANT_LR`, so it canonicalizes to the earlier member
`CONSTANT_LR` (a Python enum alias, not a distinct member); an
`LRSchedulerConfig` built with all defaults therefore has type
`CONSTANT_LR`, `update_interval = Iteration(1)` and
`warmup = Iteration(0)`. -/
theorem lrSchedulerType_default_is_constantLR :
    LRSchedulerType.valueOf "DEFAULT" = some "ConstantLR" ∧
    LRSchedulerType.valueOf "CONSTANT_LR" = some "ConstantLR" ∧
    LRSchedulerType.canonical "DEFAULT" = some "CONSTANT_LR" ∧
    ({} : LRSchedulerConfig).type = "CONSTANT_LR" ∧
    ({} : LRSchedulerConfig).update_interval = { number := 1, unit := TimeUnit.iteration } ∧
    ({} : LRSchedulerConfig).warmup = { number := 0, unit := TimeUnit.iteration } :=
  ⟨rfl, rfl, rfl, rfl, rfl, rfl⟩

/-- C4: parsing a TimeValue input fails with `InvalidTimeValue` exactly
when the numeric part is negative, the numeric part is non-integral, or
the unit token is not in the recognized vocabulary; on every other
input it returns a TimeValue. -/
theorem parse_invalid_iff (input : TimeValueInput) (d : TimeUnit) :
    (parse_number_unit_field input d = Except.error ParseError.invalidTimeValue ↔
      (input.numericNegative ∨ input.numericNonIntegral ∨ input.unitUnrecognized)) ∧
    (¬ (input.numericNegative ∨ input.numericNonIntegral ∨ input.unitUnrecognized) →
      ∃ v, parse_number_unit_field input d = Except.ok v) := by
  cases input with
  | bare n =>
      simp only [parse_number_unit_field, TimeValueInput.numericNegative,
        TimeValueInput.numericNonIntegral, TimeValueInput.unitUnrecognized,
        or_false]
      by_cases h : n < 0
      · simp [h]
      · simp [h]
  | tagged q tok =>
      simp only [parse_number_unit_field, TimeValueInput.numericNegative,
        TimeValueInput.numericNonIntegral, TimeValueInput.unitUnrecognized]
      cases hu : parseUnit tok with
      | none => simp
      | some u =>
          by_cases h1 : q < 0
          · simp [h1]
          · by_cases h2 : q.den = 1
            · simp [h1, h2, hu]
            · simp [h1, h2]

/-- C4 witness: the tagged input `(2, "epoch")` trips none of the three
failure conditions and parses to a TimeValue. -/
theorem parse_invalid_iff_witness :
    ¬ ((TimeValueInput.tagged 2 "epoch").numericNegative ∨
        (TimeValueInput.tagged 2 "epoch").numericNonIntegral ∨
        (TimeValueInput.tagged 2 "epoch").unitUnrecognized) ∧
    (∃ v, parse_number_unit_field (TimeValueInput.tagged 2 "epoch") TimeUnit.iteration =
      Except.ok v) := by
  refine ⟨?_, (parse_invalid_iff (TimeValueInput.tagged 2 "epoch") TimeUnit.iteration).2 ?_⟩
  · simp only [TimeValueInput.numericNegative, TimeValueInput.numericNonIntegral,
      TimeValueInput.unitUnrecognized]
    decide
  · simp only [TimeValueInput.numericNegative, TimeValueInput.numericNonIntegral,
      TimeValueInput.unitUnrecognized]
    decide

/-- C5: serializing a valid TimeValue (non-negative integer magnitude and
a unit among Iteration, Step, Epoch) and parsing it back yields a
structurally equal TimeValue, whatever default unit the call site uses. -/
theorem parse_serialize_roundtrip (v : TimeValue) (d : TimeUnit) :
    parse_number_unit_field v.serialize d = Except.ok v := by
  obtain ⟨n, u⟩ := v
  cases u <;>
    simp [TimeValue.serialize, TimeUnit.token, parse_number_unit_field,
      parseUnit_iteration, parseUnit_step, parseUnit_epoch]

theorem Clock.elapsed_since_advanceBy_start (bsize len n r : Nat) (interval : TimeValue)
    (hres : resolve interval { batch_size := bsize, dataset_length := some len } =
      Except.ok r) :
    ((startClock bsize len).advanceBy n true).elapsed_since ClockState.start interval =
      decide (r ≤ n) := by
  obtain ⟨m, u⟩ := interval
  have hit : ((startClock bsize len).advanceBy n true).state.iterations_elapsed = n := by
    simpa [startClock, ClockState.start] using
      Clock.advanceBy_iterations (startClock bsize len) n true
  have hst : ((startClock bsize len).advanceBy n true).state.steps_elapsed = n := by
    simpa [startClock, ClockState.start] using
      Clock.advanceBy_steps_true (startClock bsize len) n
  cases u with
  | iteration =>
      have hr : r = m := by
        simpa [resolve] using hres.symm
      simp [Clock.elapsed_since, hit, hr, ClockState.start]
  | step =>
      have hr : r = m := by
        simpa [resolve] using hres.symm
      simp [Clock.elapsed_since, hst, hr, ClockState.start]
  | epoch =>
      have hctx : ((startClock bsize len).advanceBy n true).runContext =
          { batch_size := bsize, dataset_length := some len } := by
        simp [Clock.runContext, Clock.advanceBy_batch_size, Clock.advanceBy_dataset_length,
          startClock]
      simp [Clock.elapsed_since, hctx, hres, hit, ClockState.start]

/-- C3: whenever `resolve(interval, context)` succeeds with value `r`, a
Clock for that context advanced from its start state by exactly `r`
iterations reports `elapsed_since(start, interval) = true`, and the same
Clock advanced by one fewer iteration reports it false. -/
theorem clock_exact_boundary (interval : TimeValue) (bsize len r : Nat)
    (hres : resolve interval { batch_size := bsize, dataset_length := some len } =
      Except.ok r) :
    ((startClock bsize len).advanceBy r true).elapsed_since ClockState.start interval =
      true ∧
    (∀ k, k + 1 = r →
      ((startClock bsize len).advanceBy k true).elapsed_since ClockState.start interval =
        false) := by
  constructor
  · rw [Clock.elapsed_since_advanceBy_start bsize len r r interval hres]
    simp
  · intro k hk
    rw [Clock.elapsed_since_advanceBy_start bsize len k r interval hres]
    simp only [decide_eq_false_iff_not]
    omega

/-- C3 witness: the spec scenario — batch size 4, dataset length 100, a
1-Epoch interval resolves to 25 iterations; after 25 advances the
boundary has elapsed, after 24 it has not. -/
theorem clock_exact_boundary_witness :
    ((startClock 4 100).advanceBy 25 true).elapsed_since ClockState.start
        { number := 1, unit := TimeUnit.epoch } = true ∧
    ((startClock 4 100).advanceBy 24 true).elapsed_since ClockState.start
        { number := 1, unit := TimeUnit.epoch } = false := by
  have h := clock_exact_boundary { number := 1, unit := TimeUnit.epoch } 4 100 25 rfl
  exact ⟨h.1, h.2 24 rfl⟩

theorem Clock.elapsed_since_advance_mono (c : Clock) (b : Bool) (ref : ClockState)
    (w : TimeValue) (h : c.elapsed_since ref w = true) :
    (c.advance b).elapsed_since ref w = true := by
  obtain ⟨m, u⟩ := w
  cases u with
  | iteration =>
      simp only [Clock.elapsed_since, Clock.advance, decide_eq_true_eq] at h ⊢
      omega
  | step =>
      simp only [Clock.elapsed_since, Clock.advance, decide_eq_true_eq] at h ⊢
      cases b <;> simp <;> omega
  | epoch =>
      have hctx : (c.advance b).runContext = c.runContext := rfl
      simp only [Clock.elapsed_since, hctx] at h ⊢
      cases hres : resolve { number := m, unit := TimeUnit.epoch } c.runContext with
      | error e => rw [hres] at h; exact absurd h (by simp)
      | ok k =>
          rw [hres] at h
          simp only [Clock.advance, decide_eq_true_eq] at h ⊢
          omega

theorem Clock.elapsed_since_advanceSeq_mono (c : Clock) (bs : List Bool) (ref : ClockState)
    (w : TimeValue) (h : c.elapsed_since ref w = true) :
    (c.advanceSeq bs).elapsed_since ref w = true := by
  induction bs generalizing c with
  | nil => exact h
  | cons b bs ih =>
      exact ih (c.advance b) (Clock.elapsed_since_advance_mono c b ref w h)

/-- C7: the warmup trigger reports "still warming" exactly while
`elapsed_since(run-start, warmup)` is false, and once it reports
complete it reports complete after every further sequence of advances —
a monotone one-shot that never re-arms. -/
theorem warmup_trigger_one_shot (w : TimeValue) (c : Clock) (bs : List Bool) :
    ((warmupTrigger w).should_fire c = true ↔
      c.elapsed_since ClockState.start w = false) ∧
    ((warmupTrigger w).should_fire c = false →
      (warmupTrigger w).should_fire (c.advanceSeq bs) = false) := by
  constructor
  · simp [WarmupTrigger.should_fire, warmupTrigger]
  · intro h
    simp only [WarmupTrigger.should_fire, warmupTrigger, Bool.not_eq_false'] at h ⊢
    exact Clock.elapsed_since_advanceSeq_mono c bs ClockState.start w h

/-- C7 witness: the spec scenario — warmup of 3 iterations; after 3
advances the trigger reports complete, and it still reports complete
after arbitrary further advances (here 3 more with mixed step flags). -/
theorem warmup_trigger_one_shot_witness :
    (warmupTrigger { number := 3, unit := TimeUnit.iteration }).should_fire
        ((startClock 1 10).advanceBy 3 true) = false ∧
    (warmupTrigger { number := 3, unit := TimeUnit.iteration }).should_fire
        (((startClock 1 10).advanceBy 3 true).advanceSeq [false, true, false]) = false := by
  refine ⟨by decide, ?_⟩
  exact (warmup_trigger_one_shot { number := 3, unit := TimeUnit.iteration }
    ((startClock 1 10).advanceBy 3 true) [false, true, false]).2 (by decide)

/-- C8: every configuration model of `config.py` sets
`extra="forbid"`, so construction from an input record containing a key
that is not among the model's declared fields fails with a validation
error instead of ignoring the key. -/
theorem configs_reject_unknown_keys (declared inputKeys : List String) (k : String)
    (_hdecl : declared = trainingConfigFields ∨ declared = lrSchedulerConfigFields ∨
      declared = optimizerConfigFields ∨ declared = dataloaderConfigFields ∨
      declared = modelConfigFields ∨ declared = baseConfigFields)
    (hk : k ∈ inputKeys) (hnew : declared.contains k = false) :
    ∃ e, validateExtra declared inputKeys = Except.error e := by
  have hsome : (inputKeys.find? (fun x => ! declared.contains x)).isSome :=
    List.find?_isSome.mpr ⟨k, hk, by simp only [hnew, Bool.not_false]⟩
  obtain ⟨e, he⟩ := Option.isSome_iff_exists.mp hsome
  refine ⟨e, ?_⟩
  unfold validateExtra
  rw [he]

/-- C8 witness: a record with the misspelled key `devicee` is rejected
by the `TrainingConfig` model. -/
theorem configs_reject_unknown_keys_witness :
    ∃ e, validateExtra trainingConfigFields ["devicee"] = Except.error e :=
  configs_reject_unknown_keys trainingConfigFields ["devicee"] "devicee"
    (Or.inl rfl) (by decide) (by decide)

/-- C9: `OptimizerConfig.get` is exhaustive — for every `Optimizers`
variant it returns an optimizer instance of that same kind — and for
Prodigy with a learning rate different from 1.0 it emits the
instability warning yet still returns the Prodigy optimizer (with
`safeguard_warmup` and `use_bias_correction` enabled). -/
theorem optimizerConfig_get_exhaustive (cfg : OptimizerConfig) :
    (cfg.get.2.kind = cfg.optimizer) ∧
    (cfg.optimizer = Optimizers.Prodigy → cfg.learning_rate ≠ 1 →
      cfg.get.1 = ["Prodigy learning rate is not 1.0, this might cause instability."] ∧
      cfg.get.2.kind = Optimizers.Prodigy ∧
      cfg.get.2.safeguard_warmup = true ∧
      cfg.get.2.use_bias_correction = true) := by
  obtain ⟨o, lr, bet, e, wd⟩ := cfg
  cases o <;> simp [OptimizerConfig.get]

/-- C9 witness: an `OptimizerConfig` selecting Prodigy with the default
learning rate 1e-4 warns and still yields the Prodigy optimizer. -/
theorem optimizerConfig_get_exhaustive_witness :
    ({ optimizer := Optimizers.Prodigy } : OptimizerConfig).get.1 =
      ["Prodigy learning rate is not 1.0, this might cause instability."] ∧
    ({ optimizer := Optimizers.Prodigy } : OptimizerConfig).get.2.kind =
      Optimizers.Prodigy := by
  have h := (optimizerConfig_get_exhaustive { optimizer := Optimizers.Prodigy }).2
    rfl (by decide)
  exact ⟨h.1, h.2.1⟩
